import Mathlib

/-!
Verification of the XMTP frame subscribe-button flow described in
`src/README.md`. The README's `getResponse` fragments (body parsing,
Neynar lookup, `user.verifications[0]`), its "Managing Frame State"
steps 1-3, and the Step-4 snippet (`checkAddressIsOnNetwork`,
`newConversation`, `returnMessage`, fire-and-forget `sendMessage`)
are embedded as a single pure handler over an explicit environment;
the consent page's `handleClick` is embedded as a pure function over
an environment that records which awaited step rejects.
-/

namespace FrameSubscribe

/-- Untrusted frame-click payload fields the handler parses:
`body.untrustedData?.fid` and `body.untrustedData?.buttonIndex`,
both optional. -/
structure UntrustedData where
  fid : Option Nat
  buttonIndex : Option Nat
  deriving DecidableEq, Repr

/-- The parsed request body: `{ untrustedData?: { fid?, buttonIndex? } }`. -/
structure FrameRequest where
  untrustedData : Option UntrustedData
  deriving DecidableEq, Repr

/-- A Neynar directory user record; the handler reads only
`user.verifications` (a list of wallet addresses). -/
structure NeynarUser where
  verifications : List String
  deriving DecidableEq, Repr

/-- Propagated JavaScript exceptions, tagged by the await that rejected:
reading `user.verifications` off an undefined `data.users[0]`
(TypeError), a rejected `checkAddressIsOnNetwork` call, or a rejected
`newConversation` call. -/
inductive JsError
  | typeError
  | presenceCheckFailed
  | conversationFailed
  deriving DecidableEq, Repr

/-- External collaborators of one click, as response functions:
the Neynar directory (`data.users` for a fid), the localDB/Redis
subscription store read, the presence check (which can reject:
`Except.error`), and whether `newConversation` and `sendMessage`
succeed for an address. Addresses are `Option String` because an
empty `verifications` array leaves `accountAddress` undefined and the
code passes it on unchecked. -/
structure ClickEnv where
  users : Option Nat → List NeynarUser
  subscribed : Option String → Bool
  presence : Option String → Except Unit Bool
  conversationOk : Option String → Bool
  sendOk : Option String → Bool

/-- Observable outcome of one click: the returned label or the
propagated exception, the final store contents, and how many
presence-check calls, `sendMessage` invocations and store writes
happened; `delivered` records whether the fired send actually
delivered (the code never awaits or inspects it). -/
structure ClickOutcome where
  result : Except JsError String
  store : Option String → Bool
  presenceCalls : Nat
  sends : Nat
  writes : Nat
  delivered : Bool

/-- The click handler embedded from `src/README.md`: parse
`fid`/`buttonIndex`, fetch `data.users[0]` and take
`user.verifications[0]` as `accountAddress`; step 1 checks the store
("You are already subscribed"); step 2 awaits
`checkAddressIsOnNetwork`; on `true`, step 3 sets the address
subscribed in Redis, awaits `newConversation`, sets the success label
and fires `sendMessage` without awaiting it; on `false` the label is
the string literal of the snippet, trailing period and space
included. -/
def getResponse (env : ClickEnv) (req : FrameRequest) : ClickOutcome :=
  let fid := req.untrustedData.bind fun u => u.fid
  let _buttonIndex := req.untrustedData.bind fun u => u.buttonIndex
  match (env.users fid).head? with
  | none =>
      { result := .error .typeError, store := env.subscribed,
        presenceCalls := 0, sends := 0, writes := 0, delivered := false }
  | some user =>
      let accountAddress := user.verifications.head?
      if env.subscribed accountAddress then
        { result := .ok "You are already subscribed", store := env.subscribed,
          presenceCalls := 0, sends := 0, writes := 0, delivered := false }
      else
        match env.presence accountAddress with
        | .error _ =>
            { result := .error .presenceCheckFailed, store := env.subscribed,
              presenceCalls := 1, sends := 0, writes := 0, delivered := false }
        | .ok false =>
            { result := .ok "Address is not on the XMTP network. ",
              store := env.subscribed,
              presenceCalls := 1, sends := 0, writes := 0, delivered := false }
        | .ok true =>
            let store := fun a => if a = accountAddress then true else env.subscribed a
            if env.conversationOk accountAddress then
              { result := .ok "Subscribed! Check your inbox for a confirmation link.",
                store := store, presenceCalls := 1, sends := 1, writes := 1,
                delivered := env.sendOk accountAddress }
            else
              { result := .error .conversationFailed, store := store,
                presenceCalls := 1, sends := 0, writes := 1, delivered := false }

/-- Consent state of an address on the messaging network, the
tri-state of `client.contacts.consentState`. -/
inductive ConsentState
  | unknown
  | allowed
  | denied
  deriving DecidableEq, Repr

/-- String rendering of a consent state as the page displays it. -/
def ConsentState.render : ConsentState → String
  | .unknown => "unknown"
  | .allowed => "allowed"
  | .denied => "denied"

/-- The consent toggle of `handleClick` in `pages/consent.tsx`:
`unknown` or `denied` become `allowed` (via `contacts.allow`),
`allowed` becomes `denied` (via `contacts.deny`). -/
def toggleConsent : ConsentState → ConsentState
  | .unknown => .allowed
  | .denied => .allowed
  | .allowed => .denied

/-- Environment of one consent-page click: whether each awaited step
(`connectWallet`, `Client.create`, `refreshConsentList`, and the
`allow`/`deny` call) resolves, and the consent state the client
reports for self. -/
structure ConsentEnv where
  connectOk : Bool
  clientOk : Bool
  refreshOk : Bool
  allowOk : Bool
  denyOk : Bool
  selfState : ConsentState
  deriving DecidableEq, Repr

/-- UI state touched by the consent page: the subscription-status
label (`none` until `setSubscriptionStatus` first runs) and the
loading flag. -/
structure ConsentUI where
  label : Option String
  loading : Bool
  deriving DecidableEq, Repr

/-- Whether the mutating consent call of this click resolves: `allow`
when the self state is `unknown` or `denied`, `deny` when it is
`allowed`. -/
def consentUpdateOk (env : ConsentEnv) : Bool :=
  match env.selfState with
  | .unknown => env.allowOk
  | .denied => env.allowOk
  | .allowed => env.denyOk

/-- The try-block of `handleClick`: set loading, await wallet, client
and consent-list refresh, toggle the self consent state through
`allow`/`deny`, then set the label and clear loading; `Except.error`
marks the first rejected await, with the UI as mutated so far. -/
def handleClickBody (env : ConsentEnv) (ui : ConsentUI) : Except ConsentUI ConsentUI :=
  let ui1 : ConsentUI := { ui with loading := true }
  if env.connectOk = false then .error ui1
  else if env.clientOk = false then .error ui1
  else if env.refreshOk = false then .error ui1
  else if consentUpdateOk env = false then .error ui1
  else
    let state := toggleConsent env.selfState
    let ui2 : ConsentUI := { ui1 with label := some ("Consent State: " ++ state.render) }
    .ok { ui2 with loading := false }

/-- The whole `handleClick`: the catch clause only logs, so a rejected
step leaves the UI exactly as the try-block had mutated it and the
handler returns normally. -/
def handleClick (env : ConsentEnv) (ui : ConsentUI) : ConsentUI :=
  match handleClickBody env ui with
  | .ok u => u
  | .error u => u

/-- The example payload's request: fid 10952, buttonIndex 1. -/
def req1 : FrameRequest := ⟨some ⟨some 10952, some 1⟩⟩

/-- The spec's failure-example request with fid 99999. -/
def req99999 : FrameRequest := ⟨some ⟨some 99999, some 1⟩⟩

/-- Directory user verified as wallet 0xabc. -/
def userABC : NeynarUser := ⟨["0xabc"]⟩

/-- Fresh on-network address, everything succeeds. -/
def envFresh : ClickEnv :=
  ⟨fun _ => [userABC], fun _ => false, fun _ => .ok true, fun _ => true, fun _ => true⟩

/-- Fresh on-network address, the fired send never delivers. -/
def envSendFails : ClickEnv :=
  ⟨fun _ => [userABC], fun _ => false, fun _ => .ok true, fun _ => true, fun _ => false⟩

/-- Address already marked subscribed in the store. -/
def envSubscribed : ClickEnv :=
  ⟨fun _ => [userABC], fun _ => true, fun _ => .ok true, fun _ => true, fun _ => true⟩

/-- Address resolves but the presence check answers false. -/
def envOffNetwork : ClickEnv :=
  ⟨fun _ => [userABC], fun _ => false, fun _ => .ok false, fun _ => true, fun _ => true⟩

/-- The presence-check call itself rejects (transport failure). -/
def envPresenceFails : ClickEnv :=
  ⟨fun _ => [userABC], fun _ => false, fun _ => .error (), fun _ => true, fun _ => true⟩

/-- Directory user whose verifications array is empty. -/
def envNoVerifications : ClickEnv :=
  ⟨fun _ => [⟨[]⟩], fun _ => false, fun _ => .ok false, fun _ => true, fun _ => true⟩

/-- Fresh on-network address but opening the conversation rejects. -/
def envConversationFails : ClickEnv :=
  ⟨fun _ => [userABC], fun _ => false, fun _ => .ok true, fun _ => false, fun _ => true⟩

end FrameSubscribe

namespace FrameSubscribe

/-- C8: the consent toggle maps unknown and denied to allowed and
allowed to denied; twice-toggling fixes denied and allowed but sends
unknown to denied, so the double toggle is not an involution on
unknown. -/
theorem consent_toggle_spec :
    toggleConsent .unknown = .allowed ∧
    toggleConsent .denied = .allowed ∧
    toggleConsent .allowed = .denied ∧
    toggleConsent (toggleConsent .denied) = .denied ∧
    toggleConsent (toggleConsent .allowed) = .allowed ∧
    toggleConsent (toggleConsent .unknown) = .denied ∧
    toggleConsent (toggleConsent .unknown) ≠ .unknown := by
  refine ⟨rfl, rfl, rfl, rfl, rfl, rfl, ?_⟩
  decide

/-- C1 counterexample: with the send failing to deliver, the handler
still writes subscribed=true for the resolved address, so the store
write does not wait for successful delivery. -/
theorem write_without_delivery :
    (getResponse envSendFails req1).delivered = false ∧
    (getResponse envSendFails req1).writes = 1 ∧
    (getResponse envSendFails req1).store (some "0xabc") = true := by
  refine ⟨rfl, rfl, ?_⟩
  simp [getResponse, envSendFails, userABC, req1]

/-- C1 amended: the store write happens as soon as the presence check
succeeds, before and independently of message delivery; the recorded
delivery outcome is whatever the fire-and-forget send does. -/
theorem write_precedes_send (env : ClickEnv) (req : FrameRequest)
    (user : NeynarUser) (addr : String)
    (hu : (env.users (req.untrustedData.bind fun u => u.fid)).head? = some user)
    (ha : user.verifications.head? = some addr)
    (hs : env.subscribed (some addr) = false)
    (hp : env.presence (some addr) = .ok true)
    (hc : env.conversationOk (some addr) = true) :
    (getResponse env req).writes = 1 ∧
    (getResponse env req).store (some addr) = true ∧
    (getResponse env req).delivered = env.sendOk (some addr) := by
  simp [getResponse, hu, ha, hs, hp, hc]

/-- C1 amended, witness: at the concrete failing-send environment the
write still happens and delivery is false. -/
theorem write_precedes_send_witness :
    (getResponse envSendFails req1).writes = 1 ∧
    (getResponse envSendFails req1).store (some "0xabc") = true ∧
    (getResponse envSendFails req1).delivered = envSendFails.sendOk (some "0xabc") :=
  write_precedes_send envSendFails req1 userABC "0xabc" rfl rfl rfl rfl rfl

/-- C2: a fresh on-network address whose send succeeds yields the
exact success label, one send, one store write, and subscribed=true
for the address. -/
theorem fresh_click_success (env : ClickEnv) (req : FrameRequest)
    (user : NeynarUser) (addr : String)
    (hu : (env.users (req.untrustedData.bind fun u => u.fid)).head? = some user)
    (ha : user.verifications.head? = some addr)
    (hs : env.subscribed (some addr) = false)
    (hp : env.presence (some addr) = .ok true)
    (hc : env.conversationOk (some addr) = true)
    (hd : env.sendOk (some addr) = true) :
    (getResponse env req).result
      = .ok "Subscribed! Check your inbox for a confirmation link." ∧
    (getResponse env req).sends = 1 ∧
    (getResponse env req).writes = 1 ∧
    (getResponse env req).store (some addr) = true := by
  simp [getResponse, hu, ha, hs, hp, hc, hd]

/-- C2 witness: the end-to-end example with fid 10952 and address
0xabc. -/
theorem fresh_click_success_witness :
    (getResponse envFresh req1).result
      = .ok "Subscribed! Check your inbox for a confirmation link." ∧
    (getResponse envFresh req1).sends = 1 ∧
    (getResponse envFresh req1).writes = 1 ∧
    (getResponse envFresh req1).store (some "0xabc") = true :=
  fresh_click_success envFresh req1 userABC "0xabc" rfl rfl rfl rfl rfl rfl

/-- C3: a click whose resolved address is already subscribed returns
the exact label, performs no presence check, no send, no store write,
and leaves the store pointwise unchanged. -/
theorem already_subscribed_click (env : ClickEnv) (req : FrameRequest)
    (user : NeynarUser)
    (hu : (env.users (req.untrustedData.bind fun u => u.fid)).head? = some user)
    (hs : env.subscribed user.verifications.head? = true) :
    (getResponse env req).result = .ok "You are already subscribed" ∧
    (getResponse env req).presenceCalls = 0 ∧
    (getResponse env req).sends = 0 ∧
    (getResponse env req).writes = 0 ∧
    ∀ a, (getResponse env req).store a = env.subscribed a := by
  simp [getResponse, hu, hs]

/-- C3 witness: at the concrete already-subscribed environment the
short-circuit label comes back with zero external calls. -/
theorem already_subscribed_click_witness :
    (getResponse envSubscribed req1).result = .ok "You are already subscribed" ∧
    (getResponse envSubscribed req1).presenceCalls = 0 ∧
    (getResponse envSubscribed req1).sends = 0 ∧
    (getResponse envSubscribed req1).writes = 0 ∧
    (getResponse envSubscribed req1).store (some "0xabc")
      = envSubscribed.subscribed (some "0xabc") := by
  have h := already_subscribed_click envSubscribed req1 userABC rfl rfl
  exact ⟨h.1, h.2.1, h.2.2.1, h.2.2.2.1, h.2.2.2.2 (some "0xabc")⟩

/-- C4: on a fresh address whose presence check answers false, the
code returns the literal with a trailing period and space, which is
not the documented label, and performs no store write. -/
theorem not_on_network_label_mismatch :
    (getResponse envOffNetwork req1).result
      = .ok "Address is not on the XMTP network. " ∧
    (getResponse envOffNetwork req1).result
      ≠ .ok "Address is not on the XMTP network" ∧
    (getResponse envOffNetwork req1).writes = 0 ∧
    (getResponse envOffNetwork req1).store (some "0xabc") = false := by
  refine ⟨rfl, ?_, rfl, rfl⟩
  intro h
  rw [show (getResponse envOffNetwork req1).result
      = .ok "Address is not on the XMTP network. " from rfl] at h
  exact absurd (Except.ok.inj h) (by decide)

/-- C5 counterexample: a directory user with an empty verifications
array does not make the click fail with a distinct identity error;
the handler proceeds with the undefined address and still calls the
presence checker, here ending at the not-on-network label. -/
theorem empty_verifications_no_identity_error :
    (getResponse envNoVerifications req99999).result
      = .ok "Address is not on the XMTP network. " ∧
    (getResponse envNoVerifications req99999).presenceCalls = 1 := by
  constructor <;> rfl

/-- C5 amended: an empty verification list leaves the account address
silently undefined; the click continues, consulting the store and the
presence checker at the undefined address, and when that check answers
false no store mutation happens. -/
theorem empty_verifications_silent (env : ClickEnv) (req : FrameRequest)
    (user : NeynarUser)
    (hu : (env.users (req.untrustedData.bind fun u => u.fid)).head? = some user)
    (hv : user.verifications = [])
    (hs : env.subscribed none = false)
    (hp : env.presence none = .ok false) :
    (getResponse env req).result = .ok "Address is not on the XMTP network. " ∧
    (getResponse env req).presenceCalls = 1 ∧
    (getResponse env req).writes = 0 ∧
    ∀ a, (getResponse env req).store a = env.subscribed a := by
  simp [getResponse, hu, hv, hs, hp]

/-- C5 amended, witness: the concrete empty-verifications environment
at fid 99999. -/
theorem empty_verifications_silent_witness :
    (getResponse envNoVerifications req99999).result
      = .ok "Address is not on the XMTP network. " ∧
    (getResponse envNoVerifications req99999).presenceCalls = 1 ∧
    (getResponse envNoVerifications req99999).writes = 0 ∧
    (getResponse envNoVerifications req99999).store none
      = envNoVerifications.subscribed none := by
  have h := empty_verifications_silent envNoVerifications req99999 ⟨[]⟩ rfl rfl rfl rfl
  exact ⟨h.1, h.2.1, h.2.2.1, h.2.2.2 none⟩

/-- C6: a rejection of the presence-check call itself propagates as
the distinct presence-check error, is not the negative-presence label,
and leaves the store pointwise unchanged with no write. -/
theorem presence_transport_failure_distinct (env : ClickEnv) (req : FrameRequest)
    (user : NeynarUser)
    (hu : (env.users (req.untrustedData.bind fun u => u.fid)).head? = some user)
    (hs : env.subscribed user.verifications.head? = false)
    (hp : env.presence user.verifications.head? = .error ()) :
    (getResponse env req).result = .error .presenceCheckFailed ∧
    (getResponse env req).result ≠ .ok "Address is not on the XMTP network. " ∧
    (getResponse env req).writes = 0 ∧
    ∀ a, (getResponse env req).store a = env.subscribed a := by
  simp [getResponse, hu, hs, hp]

/-- C6 witness: the concrete rejecting presence check. -/
theorem presence_transport_failure_distinct_witness :
    (getResponse envPresenceFails req1).result = .error .presenceCheckFailed ∧
    (getResponse envPresenceFails req1).result
      ≠ .ok "Address is not on the XMTP network. " ∧
    (getResponse envPresenceFails req1).writes = 0 ∧
    (getResponse envPresenceFails req1).store (some "0xabc")
      = envPresenceFails.subscribed (some "0xabc") := by
  have h := presence_transport_failure_distinct envPresenceFails req1 userABC rfl rfl rfl
  exact ⟨h.1, h.2.1, h.2.2.1, h.2.2.2 (some "0xabc")⟩

/-- C7 counterexample: when the send fails to deliver, the click still
returns the success label and the store keeps subscribed=true, so no
delivery failure is surfaced and the store is not left unmodified. -/
theorem send_failure_returns_success_label :
    (getResponse envSendFails req1).result
      = .ok "Subscribed! Check your inbox for a confirmation link." ∧
    (getResponse envSendFails req1).delivered = false ∧
    (getResponse envSendFails req1).store (some "0xabc") = true := by
  refine ⟨rfl, rfl, ?_⟩
  simp [getResponse, envSendFails, userABC, req1]

/-- C7 amended: the send is fired without awaiting, so its failure is
invisible (success label, store marked subscribed); a failed
conversation open propagates as an exception, but only after the
store write, so the store is marked subscribed there as well. -/
theorem delivery_failure_behavior (env : ClickEnv) (req : FrameRequest)
    (user : NeynarUser) (addr : String)
    (hu : (env.users (req.untrustedData.bind fun u => u.fid)).head? = some user)
    (ha : user.verifications.head? = some addr)
    (hs : env.subscribed (some addr) = false)
    (hp : env.presence (some addr) = .ok true) :
    (env.conversationOk (some addr) = true → env.sendOk (some addr) = false →
      (getResponse env req).result
        = .ok "Subscribed! Check your inbox for a confirmation link." ∧
      (getResponse env req).store (some addr) = true) ∧
    (env.conversationOk (some addr) = false →
      (getResponse env req).result = .error .conversationFailed ∧
      (getResponse env req).store (some addr) = true) := by
  constructor
  · intro hc hd
    simp [getResponse, hu, ha, hs, hp, hc, hd]
  · intro hc
    simp [getResponse, hu, ha, hs, hp, hc]

/-- C7 amended, witness: at the concrete failing-send environment the
success label is returned with the store marked. -/
theorem delivery_failure_behavior_witness :
    (getResponse envSendFails req1).result
      = .ok "Subscribed! Check your inbox for a confirmation link." ∧
    (getResponse envSendFails req1).store (some "0xabc") = true :=
  (delivery_failure_behavior envSendFails req1 userABC "0xabc" rfl rfl rfl rfl).1 rfl rfl

/-- C9: if any awaited step of the consent page rejects, the handler
returns normally with the label untouched (and loading still set),
because the catch clause only logs. -/
theorem consent_failure_soft (env : ConsentEnv) (ui : ConsentUI)
    (h : env.connectOk = false ∨ env.clientOk = false ∨
      env.refreshOk = false ∨ consentUpdateOk env = false) :
    handleClick env ui = ⟨ui.label, true⟩ := by
  unfold handleClick handleClickBody
  rcases h with h | h | h | h <;> split_ifs <;> simp_all

/-- C9 witness: a rejected wallet connection leaves the UI label
unchanged. -/
theorem consent_failure_soft_witness :
    handleClick ⟨false, true, true, true, true, .unknown⟩ ⟨none, false⟩
      = ⟨(⟨none, false⟩ : ConsentUI).label, true⟩ :=
  consent_failure_soft ⟨false, true, true, true, true, .unknown⟩ ⟨none, false⟩
    (Or.inl rfl)

/-- C10: two requests differing only in buttonIndex produce identical
outcomes — label, store contents, and all call counts — because the
handler extracts buttonIndex but never uses it. -/
theorem buttonIndex_irrelevant (env : ClickEnv) (f : Option Nat)
    (b1 b2 : Option Nat) :
    getResponse env ⟨some ⟨f, b1⟩⟩ = getResponse env ⟨some ⟨f, b2⟩⟩ := rfl

end FrameSubscribe
